import Mathlib

/-!
Shallow embedding of the authentication core of the SecureRestApi Go service:
the bcrypt-backed credential hasher (`internal/infrastructure/security/password.go`),
the JWT token service (`internal/infrastructure/security/jwt.go`), the
authentication use case (`internal/usecase/auth_usecase.go`), the HTTP
authorization middleware and handlers (`internal/delivery/http`), and the
user entity (`internal/domain/user.go`).

Machine integers (`int64`, unix times) are modelled as `Int`; Go strings as
`String`; fallible Go functions returning `(T, error)` as `Except`.
-/

set_option autoImplicit false

namespace SecureRestApi

/-! ## Credential hasher (PasswordService over bcrypt) -/

/-- Errors of the bcrypt-backed hasher.
`entropyFailure` models a catastrophic failure of the random-salt source;
`mismatchedHashAndPassword` is bcrypt's comparison-failure error. -/
inductive BcryptError where
  | entropyFailure
  | mismatchedHashAndPassword
deriving DecidableEq

/-- Modelled from the spec: the output of bcrypt's one-way key derivation,
whose code lives in the external library `golang.org/x/crypto/bcrypt`, not in
this repository.  §4.1 requires deterministic verification (recomputing with
the cost and salt embedded in the stored hash) and that any distinct plaintext
mismatch; i.e. for a fixed cost and salt the derivation is collision-free.  An
ideal collision-free derivation is modelled as the record of its inputs
(one-wayness is a computational property outside the embedding). -/
structure BcryptDigest where
  cost : Nat
  salt : Nat
  key : String
deriving DecidableEq

/-- Modelled from the spec: the ideal bcrypt key-derivation function
(library code absent from the repository). -/
def bcryptKDF (cost salt : Nat) (password : String) : BcryptDigest :=
  ⟨cost, salt, password⟩

/-- A bcrypt hash string is self-contained: it embeds the cost, the salt and
the derived digest (spec §4.1: "embeds algorithm parameters and salt"). -/
structure PasswordHash where
  cost : Nat
  salt : Nat
  digest : BcryptDigest
deriving DecidableEq

/-- Modelled from the spec: `bcrypt.GenerateFromPassword` (external library,
source not in the repository).  Draws a random salt from the entropy source
(`entropy = none` models a catastrophic entropy failure, the only failure
§4.1 allows: "fails only on catastrophic internal error (e.g., entropy source
failure); does not fail on empty/long input"). -/
def generateFromPassword (entropy : Option Nat) (cost : Nat) (password : String) :
    Except BcryptError PasswordHash :=
  match entropy with
  | Option.none => .error .entropyFailure
  | .some salt => .ok ⟨cost, salt, bcryptKDF cost salt password⟩

/-- Modelled from the spec: `bcrypt.CompareHashAndPassword` (external library).
Recomputes the derivation with the cost and salt embedded in the stored hash
and compares with the stored digest (§4.1). -/
def compareHashAndPassword (hashedPassword : PasswordHash) (password : String) :
    Except BcryptError Unit :=
  if hashedPassword.digest = bcryptKDF hashedPassword.cost hashedPassword.salt password then
    .ok ()
  else
    .error .mismatchedHashAndPassword

/-- `bcrypt.DefaultCost` in `golang.org/x/crypto/bcrypt`. -/
def bcryptDefaultCost : Nat := 10

/-- `PasswordService` (password.go): holds the bcrypt cost. -/
structure PasswordService where
  cost : Nat
deriving DecidableEq

/-- `NewPasswordService` (password.go): uses `bcrypt.DefaultCost`. -/
def newPasswordService : PasswordService := ⟨bcryptDefaultCost⟩

/-- `PasswordService.Hash` (password.go): delegates to
`bcrypt.GenerateFromPassword` with the service's cost.  The entropy source is
passed explicitly (Go draws it from the global CSPRNG). -/
def PasswordService.hash (s : PasswordService) (entropy : Option Nat) (password : String) :
    Except BcryptError PasswordHash :=
  generateFromPassword entropy s.cost password

/-- `PasswordService.Verify` (password.go): delegates to
`bcrypt.CompareHashAndPassword`. -/
def PasswordService.verify (hashedPassword : PasswordHash) (password : String) :
    Except BcryptError Unit :=
  compareHashAndPassword hashedPassword password

/-! ## Token service (JWTService, jwt.go) -/

/-- JWT signing algorithms the embedding distinguishes: the HMAC family
(`jwt.SigningMethodHMAC`: HS256/HS384/HS512), the unsigned `none` method, and
a representative non-HMAC method (RS256). -/
inductive SigAlg where
  | HS256
  | HS384
  | HS512
  | algNone
  | RS256
deriving DecidableEq

/-- The type assertion `token.Method.(*jwt.SigningMethodHMAC)` in the keyfunc
of `ValidateToken` (jwt.go line 48). -/
def sigAlgIsHMAC : SigAlg → Bool
  | .HS256 => true
  | .HS384 => true
  | .HS512 => true
  | .algNone => false
  | .RS256 => false

/-- The `Claims` struct of jwt.go: custom `user_id` and `email` claims plus
the embedded `jwt.RegisteredClaims`.  `GenerateToken` sets `Issuer`,
`IssuedAt` and `ExpiresAt`; `NotBefore` is also part of the embedded struct
and unmarshals from incoming tokens (the default v5 validator checks it when
present), even though `GenerateToken` never sets it.  Times are unix seconds
(`Int`); a JSON-absent `exp`/`nbf` is `Option.none`; a JSON-absent issuer
unmarshals to the empty string. -/
structure Claims where
  userID : Int
  email : String
  issuer : String
  issuedAt : Int
  expiresAt : Option Int
  notBefore : Option Int
deriving DecidableEq

/-- An ideal unforgeable MAC: a signature value is completely determined by
the algorithm, the key and the signed payload, and verifies only against that
triple.  Models the HMAC computed by the `golang-jwt/jwt/v5` library (external
code, not in the repository). -/
structure MacSig where
  alg : SigAlg
  key : String
  payload : Claims
deriving DecidableEq

/-- Signing a claims payload (the library's `SignedString`). -/
def hmacSign (alg : SigAlg) (key : String) (payload : Claims) : MacSig :=
  ⟨alg, key, payload⟩

/-- A compact-serialized token string as `ValidateToken` sees it: either a
string that does not parse as a JWT at all (`malformed`), or a well-formed
token carrying a header algorithm, a claims payload and a signature. -/
inductive TokenString where
  | malformed
  | signed (alg : SigAlg) (claims : Claims) (sig : MacSig)
deriving DecidableEq

/-- `JWTService` (jwt.go): symmetric key, issuer name and token lifetime,
fixed at construction (`NewJWTService`). `duration` is in seconds. -/
structure JWTService where
  secretKey : String
  issuer : String
  duration : Int
deriving DecidableEq

/-- The claims `GenerateToken` builds (jwt.go lines 31-40): `IssuedAt = now`,
`ExpiresAt = now + duration`, `Issuer` = the configured issuer; `NotBefore`
is left unset (`nil`). -/
def JWTService.genClaims (s : JWTService) (now : Int) (userID : Int) (email : String) : Claims :=
  { userID := userID
    email := email
    issuer := s.issuer
    issuedAt := now
    expiresAt := .some (now + s.duration)
    notBefore := Option.none }

/-- `GenerateToken` (jwt.go lines 30-44): signs the claims with HS256 under
the service key.  `SignedString`'s own error path (marshalling failure,
unreachable for these claims with an HMAC key) is dropped. -/
def JWTService.generateToken (s : JWTService) (now : Int) (userID : Int) (email : String) :
    TokenString :=
  .signed .HS256 (s.genClaims now userID email)
    (hmacSign .HS256 s.secretKey (s.genClaims now userID email))

/-- The distinct error values `ValidateToken` can return: the sentinel errors
of `golang-jwt/jwt/v5` that `jwt.ParseWithClaims` wraps
(`ErrTokenMalformed`; `ErrTokenUnverifiable` wrapping the keyfunc's
"unexpected signing method"; `ErrTokenSignatureInvalid`; `ErrTokenExpired`
and `ErrTokenNotValidYet` joined into `ErrTokenInvalidClaims`). -/
inductive TokenError where
  | malformed
  | unexpectedSigningMethod
  | signatureInvalid
  | expired
  | notValidYet
deriving DecidableEq

/-- The default v5 validator's `exp` check: fails iff `exp` is present and
the token is no longer valid (valid iff now is strictly before `exp`);
skipped when `exp` is absent. -/
def expiresAtInvalid (now : Int) : Option Int → Bool
  | Option.none => false
  | .some exp => decide (exp ≤ now)

/-- The default v5 validator's `nbf` check: fails iff `nbf` is present and
still in the future (valid iff `nbf ≤ now`); skipped when `nbf` is absent. -/
def notBeforeInvalid (now : Int) : Option Int → Bool
  | Option.none => false
  | .some nbf => decide (now < nbf)

/-- `ValidateToken` (jwt.go lines 46-63), following the v5 parser's order:
parse the compact serialization (malformed reject), run the keyfunc (which
rejects any non-HMAC signing method, jwt.go line 48), verify the signature
under the service key, then validate the claims — the default v5 validator
checks `exp` and `nbf` when present and does not inspect `iss` or `iat`.
When both time checks fail the library joins both sentinels into one
`ErrTokenInvalidClaims` error; the model keeps the expiry sentinel for that
(still rejected) case.  The final `errors.New("invalid token")` fall-through
of jwt.go line 62 is unreachable (the claims value always has the `*Claims`
type supplied to the parser). -/
def JWTService.validateToken (s : JWTService) (now : Int) (tokenString : TokenString) :
    Except TokenError Claims :=
  match tokenString with
  | .malformed => .error .malformed
  | .signed alg claims sig =>
    if sigAlgIsHMAC alg = false then
      .error .unexpectedSigningMethod
    else if sig = hmacSign alg s.secretKey claims then
      if expiresAtInvalid now claims.expiresAt then .error .expired
      else if notBeforeInvalid now claims.notBefore then .error .notValidYet
      else .ok claims
    else
      .error .signatureInvalid

/-! ## Domain model (user.go, errors.go) and the user store -/

/-- `domain.User` (user.go lines 5-11).  `PasswordHash` carries the struct tag
`json:"-"`, so JSON marshalling omits it; `CreatedAt`/`UpdatedAt` are unix
times modelled as `Int`. -/
structure User where
  id : Int
  email : String
  passwordHash : PasswordHash
  createdAt : Int
  updatedAt : Int
deriving DecidableEq

/-- The error values the use case and handlers compare against.  Declared in
`internal/domain/errors.go` (listed in the repository's architecture document
but absent from the provided sources); the hasher's own error propagates
unwrapped through `Register` (auth_usecase.go line 48), modelled by
`hasherError`. -/
inductive AppError where
  | errInvalidCredentials
  | errUserAlreadyExists
  | errUserNotFound
  | hasherError (e : BcryptError)
deriving DecidableEq

/-- The user store behind `domain.UserRepository`: a list of users plus the
next auto-increment id, mirroring the SQLite repository (unique email enforced
at insertion, `LastInsertId` as the new id) and the test mock. -/
structure Store where
  users : List User
  nextID : Int
deriving DecidableEq

/-- `Create(email, passwordHash)`: rejects a duplicate email with
`ErrUserAlreadyExists` (the repository maps the SQLite UNIQUE-constraint
failure to that sentinel), otherwise inserts with `CreatedAt = UpdatedAt =
now` and returns the fresh user. -/
def Store.create (s : Store) (email : String) (passwordHash : PasswordHash) (now : Int) :
    Except AppError (User × Store) :=
  if s.users.any (fun u => u.email = email) then
    .error .errUserAlreadyExists
  else
    let u : User := ⟨s.nextID, email, passwordHash, now, now⟩
    .ok (u, ⟨s.users ++ [u], s.nextID + 1⟩)

/-- `FindByEmail(email)`: first user with that email, else `ErrUserNotFound`. -/
def Store.findByEmail (s : Store) (email : String) : Except AppError User :=
  match s.users.find? (fun u => u.email = email) with
  | Option.none => .error .errUserNotFound
  | .some u => .ok u

/-- `FindByID(id)`: first user with that id, else `ErrUserNotFound`. -/
def Store.findByID (s : Store) (id : Int) : Except AppError User :=
  match s.users.find? (fun u => u.id = id) with
  | Option.none => .error .errUserNotFound
  | .some u => .ok u

/-! ## Authentication use case (auth_usecase.go) -/

/-- `usecase.RegisterRequest`. -/
structure RegisterRequest where
  email : String
  password : String
deriving DecidableEq

/-- `usecase.LoginRequest`. -/
structure LoginRequest where
  email : String
  password : String
deriving DecidableEq

/-- `usecase.AuthResponse`: the issued token and the user record. -/
structure AuthResponse where
  token : TokenString
  user : User
deriving DecidableEq

/-- Which collaborators a use-case call actually invoked (instrumentation of
the call sequence of auth_usecase.go, used to state that validation failures
short-circuit before any collaborator call). -/
structure CallLog where
  hasherCalled : Bool
  storeCalled : Bool
  tokenCalled : Bool
deriving DecidableEq

/-- `AuthUseCase.Register` (auth_usecase.go lines 41-65): empty email or
password → `ErrInvalidCredentials` before any collaborator call; then hash,
insert, issue.  Returns the result, the updated store and the call log. -/
def AuthUseCase.register (jwts : JWTService) (s : Store) (entropy : Option Nat) (now : Int)
    (req : RegisterRequest) : Except AppError AuthResponse × Store × CallLog :=
  if req.email = "" ∨ req.password = "" then
    (.error .errInvalidCredentials, s, ⟨false, false, false⟩)
  else
    match newPasswordService.hash entropy req.password with
    | .error e => (.error (.hasherError e), s, ⟨true, false, false⟩)
    | .ok hashedPassword =>
      match s.create req.email hashedPassword now with
      | .error e => (.error e, s, ⟨true, true, false⟩)
      | .ok (user, s2) =>
        (.ok ⟨jwts.generateToken now user.id user.email, user⟩, s2, ⟨true, true, true⟩)

/-- `AuthUseCase.Login` (auth_usecase.go lines 67-93): empty email or password
→ `ErrInvalidCredentials`; unknown email (`ErrUserNotFound` from the store) →
`ErrInvalidCredentials`; any other store error propagates; a verification
failure of any kind → `ErrInvalidCredentials`; otherwise issue a token. -/
def AuthUseCase.login (jwts : JWTService) (s : Store) (now : Int) (req : LoginRequest) :
    Except AppError AuthResponse :=
  if req.email = "" ∨ req.password = "" then
    .error .errInvalidCredentials
  else
    match s.findByEmail req.email with
    | .error e => if e = .errUserNotFound then .error .errInvalidCredentials else .error e
    | .ok user =>
      match PasswordService.verify user.passwordHash req.password with
      | .error _ => .error .errInvalidCredentials
      | .ok _ => .ok ⟨jwts.generateToken now user.id user.email, user⟩

/-- `AuthUseCase.GetUserByID` (auth_usecase.go lines 95-97). -/
def AuthUseCase.getUserByID (s : Store) (id : Int) : Except AppError User :=
  s.findByID id

/-! ## JSON serialization (handler.go, user.go struct tags) -/

/-- Rendering of a signing algorithm in a compact token serialization. -/
def renderSigAlg : SigAlg → String
  | .HS256 => "HS256"
  | .HS384 => "HS384"
  | .HS512 => "HS512"
  | .algNone => "none"
  | .RS256 => "RS256"

/-- JSON rendering of a claims payload (the token's second segment). -/
def renderClaims (c : Claims) : String :=
  "\x7b\"user_id\":" ++ toString c.userID ++ ",\"email\":\"" ++ c.email ++
    "\",\"iss\":\"" ++ c.issuer ++ "\",\"iat\":" ++ toString c.issuedAt ++
    ",\"exp\":" ++ (match c.expiresAt with
                    | Option.none => "null"
                    | .some e => toString e) ++ "\x7d"

/-- Rendering of a signature value: the MAC bytes are a function of the
algorithm, the key and the signed payload (ideal MAC). -/
def renderMacSig (m : MacSig) : String :=
  renderSigAlg m.alg ++ "/" ++ m.key ++ "/" ++ renderClaims m.payload

/-- Compact serialization of a token string as it appears in a response. -/
def renderToken : TokenString → String
  | .malformed => "<malformed>"
  | .signed alg claims sig =>
    renderSigAlg alg ++ "." ++ renderClaims claims ++ "." ++ renderMacSig sig

/-- `encoding/json` marshalling of `domain.User` under its struct tags
(user.go lines 5-11): fields `id`, `email`, `created_at`, `updated_at`; the
`PasswordHash` field carries `json:"-"` and is omitted. -/
def marshalUser (u : User) : String :=
  "\x7b\"id\":" ++ toString u.id ++ ",\"email\":\"" ++ u.email ++
    "\",\"created_at\":\"" ++ toString u.createdAt ++
    "\",\"updated_at\":\"" ++ toString u.updatedAt ++ "\"\x7d"

/-- Marshalling of `usecase.AuthResponse` (fields `token`, `user`), the body
of a successful Register (201) or Login (200). -/
def marshalAuthResponse (r : AuthResponse) : String :=
  "\x7b\"token\":\"" ++ renderToken r.token ++ "\",\"user\":" ++ marshalUser r.user ++ "\x7d"

/-- `http.UserResponse` (handler.go lines 135-139), the body of a successful
GET /me: fields `id`, `email`, `created_at` only. -/
def marshalUserResponse (u : User) : String :=
  "\x7b\"id\":" ++ toString u.id ++ ",\"email\":\"" ++ u.email ++
    "\",\"created_at\":\"" ++ toString u.createdAt ++ "\"\x7d"

/-- `ErrorResponse` (handler.go lines 131-133). -/
structure ErrorResponse where
  error : String
deriving DecidableEq

/-- The body `respondWithError` writes (handler.go lines 141-143):
`json.Marshal(ErrorResponse{Error: message})`.  The fixed messages of this
code base need no JSON escaping. -/
def marshalErrorResponse (e : ErrorResponse) : String :=
  "\x7b\"error\":\"" ++ e.error ++ "\"\x7d"

/-- The status code `Handler.Register` maps a use-case error to
(handler.go lines 170-181). -/
def Handler.registerStatus : AppError → Nat
  | .errUserAlreadyExists => 409
  | .errInvalidCredentials => 400
  | _ => 500

/-- The status code `Handler.Login` maps a use-case error to
(handler.go lines 198-207). -/
def Handler.loginStatus : AppError → Nat
  | .errInvalidCredentials => 401
  | _ => 500

/-! ## Authorization gate (middleware.go AuthMiddleware) -/

/-- Helper of `splitSpace`: consumes the characters, cutting at each space. -/
def splitSpaceAux : List Char → List Char → List String
  | [], acc => [String.mk acc.reverse]
  | c :: rest, acc =>
    if c = ' ' then String.mk acc.reverse :: splitSpaceAux rest []
    else splitSpaceAux rest (c :: acc)

/-- Go's `strings.Split(s, " ")`: splits around every single space; yields
`[s]` when `s` has no space and `[""]` when `s` is empty. -/
def splitSpace (s : String) : List String :=
  splitSpaceAux s.toList []

/-- An HTTP response as the middleware writes it: status code and body. -/
structure HTTPResponse where
  status : Nat
  body : String
deriving DecidableEq

/-- Outcome of the gate: a rejection response, or proceeding to the next
handler with the verified identity attached to the request context. -/
inductive AuthOutcome where
  | rejected (resp : HTTPResponse)
  | proceed (userID : Int) (email : String)
deriving DecidableEq

/-- Result of one middleware run, instrumented with the token substring that
was handed to `jwtService.ValidateToken`, if any. -/
structure GateResult where
  outcome : AuthOutcome
  validated : Option String
deriving DecidableEq

/-- `AuthMiddleware` (middleware.go lines 18-47), one request.  `authHeader`
is `r.Header.Get("Authorization")` (the empty string when the header is
absent); the token service is the collaborator `validate` (a function from
the token substring to a validation result).  Mirrors the code: empty header
→ 401 "Missing authorization header"; `strings.Split(authHeader, " ")` not of
length 2 or first part not `"Bearer"` → 401 "Invalid authorization header
format"; validation error → 401 "Invalid or expired token"; success →
proceed with the claims' UserID and Email. -/
def authMiddleware (validate : String → Except TokenError Claims) (authHeader : String) :
    GateResult :=
  if authHeader = "" then
    ⟨.rejected ⟨401, marshalErrorResponse ⟨"Missing authorization header"⟩⟩, Option.none⟩
  else
    match splitSpace authHeader with
    | [scheme, token] =>
      if scheme = "Bearer" then
        match validate token with
        | .error _ =>
          ⟨.rejected ⟨401, marshalErrorResponse ⟨"Invalid or expired token"⟩⟩, .some token⟩
        | .ok claims => ⟨.proceed claims.userID claims.email, .some token⟩
      else
        ⟨.rejected ⟨401, marshalErrorResponse ⟨"Invalid authorization header format"⟩⟩,
          Option.none⟩
    | _ =>
      ⟨.rejected ⟨401, marshalErrorResponse ⟨"Invalid authorization header format"⟩⟩,
        Option.none⟩

/-- The three rejection classes of the gate (spec §4.4). -/
inductive GateFailure where
  | missingHeader
  | malformedHeader
  | invalidToken
deriving DecidableEq

/-- The fixed message the middleware writes for each rejection class. -/
def gateMessage : GateFailure → String
  | .missingHeader => "Missing authorization header"
  | .malformedHeader => "Invalid authorization header format"
  | .invalidToken => "Invalid or expired token"

/-- Specification-side classifier: which of the three checks a request fails,
if any (`Option.none` when the gate lets the request proceed). -/
def gateFailureClass (validate : String → Except TokenError Claims) (authHeader : String) :
    Option GateFailure :=
  if authHeader = "" then
    .some .missingHeader
  else
    match splitSpace authHeader with
    | [scheme, token] =>
      if scheme = "Bearer" then
        match validate token with
        | .error _ => .some .invalidToken
        | .ok _ => Option.none
      else
        .some .malformedHeader
    | _ => .some .malformedHeader

/-! ## Theorems -/

/-- Claim C4: for every userID `uid` and email, validating a token immediately
after it was issued by `GenerateToken uid email` with the same service
configuration succeeds and returns claims whose UserID equals `uid` and whose
Email equals `email` (here "immediately after" is the same instant `now`; the
configured lifetime is positive, as is the production default of 24h). -/
theorem validate_issue_roundtrip (s : JWTService) (now uid : Int) (email : String)
    (hdur : 0 < s.duration) :
    s.validateToken now (s.generateToken now uid email) =
      .ok { userID := uid, email := email, issuer := s.issuer, issuedAt := now,
            expiresAt := .some (now + s.duration), notBefore := Option.none } := by
  have hexp : expiresAtInvalid now (.some (now + s.duration)) = false := by
    simp only [expiresAtInvalid, decide_eq_false_iff_not]
    omega
  simp [JWTService.validateToken, JWTService.generateToken, JWTService.genClaims,
    sigAlgIsHMAC, hmacSign, hexp, notBeforeInvalid]

/-- Witness for C4 at a concrete service configuration and identity. -/
theorem validate_issue_roundtrip_witness :
    (0 : Int) < 3600 ∧
      (JWTService.mk "test-secret" "test-issuer" 3600).validateToken 0
          ((JWTService.mk "test-secret" "test-issuer" 3600).generateToken 0 1 "a@x.com") =
        .ok { userID := 1, email := "a@x.com", issuer := "test-issuer", issuedAt := 0,
              expiresAt := .some 3600, notBefore := Option.none } := by
  refine ⟨by decide, ?_⟩
  have h := validate_issue_roundtrip (JWTService.mk "test-secret" "test-issuer" 3600)
    0 1 "a@x.com" (by decide)
  simpa using h

/-- Claim C6: for every non-empty password `p`, `Verify (Hash p) p` succeeds;
and for distinct `p ≠ p2`, `Verify (Hash p) p2` fails with the mismatch
error.  (`salt` is the value drawn from the entropy source.) -/
theorem verify_hash_roundtrip (salt : Nat) (p p2 : String)
    (_hne : p ≠ "") (hdiff : p ≠ p2) :
    ∃ h, newPasswordService.hash (.some salt) p = .ok h ∧
      PasswordService.verify h p = .ok () ∧
      PasswordService.verify h p2 = .error .mismatchedHashAndPassword := by
  refine ⟨⟨bcryptDefaultCost, salt, bcryptKDF bcryptDefaultCost salt p⟩, rfl, ?_, ?_⟩
  · simp [PasswordService.verify, compareHashAndPassword]
  · simp [PasswordService.verify, compareHashAndPassword, bcryptKDF, hdiff]

/-- Witness for C6 at concrete passwords. -/
theorem verify_hash_roundtrip_witness :
    "pw1" ≠ "" ∧ "pw1" ≠ "pw2" ∧
    ∃ h, newPasswordService.hash (.some 5) "pw1" = .ok h ∧
      PasswordService.verify h "pw1" = .ok () ∧
      PasswordService.verify h "pw2" = .error .mismatchedHashAndPassword :=
  ⟨by decide, by decide, verify_hash_roundtrip 5 "pw1" "pw2" (by decide) (by decide)⟩

/-- Claim C7: `Hash` fails only on catastrophic internal failure of the
entropy source: with a working entropy source it succeeds on every plaintext,
the empty string and arbitrarily long strings included, and when it fails the
error is the entropy failure, never a property of the input. -/
theorem hash_fails_only_on_entropy_failure (entropy : Option Nat) (password : String) :
    (∀ salt, entropy = .some salt →
      newPasswordService.hash entropy password =
        .ok ⟨bcryptDefaultCost, salt, bcryptKDF bcryptDefaultCost salt password⟩) ∧
    (entropy = Option.none →
      newPasswordService.hash entropy password = .error .entropyFailure) := by
  constructor
  · intro salt h
    subst h
    rfl
  · intro h
    subst h
    rfl

/-- Witness for C7: the empty password and a long password both hash
successfully; an entropy failure is the only failing case. -/
theorem hash_fails_only_on_entropy_failure_witness :
    newPasswordService.hash (.some 7) "" = .ok ⟨10, 7, bcryptKDF 10 7 ""⟩ ∧
    newPasswordService.hash (.some 7)
        "averyveryveryveryveryveryveryveryveryveryveryveryveryveryverylongpassword" =
      .ok ⟨10, 7, bcryptKDF 10 7
        "averyveryveryveryveryveryveryveryveryveryveryveryveryveryverylongpassword"⟩ ∧
    newPasswordService.hash Option.none "x" = .error .entropyFailure :=
  ⟨(hash_fails_only_on_entropy_failure (.some 7) "").1 7 rfl,
   (hash_fails_only_on_entropy_failure (.some 7)
      "averyveryveryveryveryveryveryveryveryveryveryveryveryveryverylongpassword").1 7 rfl,
   (hash_fails_only_on_entropy_failure Option.none "x").2 rfl⟩

/-- Claim C3: a register request with an empty email or an empty password is
rejected with `ErrInvalidCredentials` — the error the register handler maps
to 400 Bad Request, the spec's invalid-input class — before the hasher, the
user store or the token service is called (all three call-log flags are
false and the store is unchanged). -/
theorem register_rejects_empty_input (jwts : JWTService) (s : Store) (entropy : Option Nat)
    (now : Int) (req : RegisterRequest) (h : req.email = "" ∨ req.password = "") :
    AuthUseCase.register jwts s entropy now req =
      (.error .errInvalidCredentials, s, ⟨false, false, false⟩) ∧
    Handler.registerStatus .errInvalidCredentials = 400 := by
  refine ⟨?_, rfl⟩
  unfold AuthUseCase.register
  rw [if_pos h]

/-- Witness for C3: empty email with a non-empty password. -/
theorem register_rejects_empty_input_witness :
    AuthUseCase.register (JWTService.mk "k" "iss" 3600) ⟨[], 1⟩ (.some 5) 0 ⟨"", "pw"⟩ =
      (.error .errInvalidCredentials, ⟨[], 1⟩, ⟨false, false, false⟩) ∧
    Handler.registerStatus .errInvalidCredentials = 400 :=
  register_rejects_empty_input (JWTService.mk "k" "iss" 3600) ⟨[], 1⟩ (.some 5) 0 ⟨"", "pw"⟩
    (Or.inl rfl)

/-- Claim C2: `Login` with an email that has no user in the store returns
`ErrInvalidCredentials`, the very same error value as `Login` with a
registered email and a wrong password, so the two outcomes are equal and the
cases are indistinguishable to the caller (and both map to the same 401). -/
theorem login_unknown_email_matches_wrong_password
    (jwts1 : JWTService) (s1 : Store) (now1 : Int) (req1 : LoginRequest)
    (jwts2 : JWTService) (s2 : Store) (now2 : Int) (req2 : LoginRequest) (u : User)
    (hunknown : ∀ w ∈ s1.users, w.email ≠ req1.email)
    (hfound : s2.findByEmail req2.email = .ok u)
    (hwrong : PasswordService.verify u.passwordHash req2.password =
      .error .mismatchedHashAndPassword) :
    AuthUseCase.login jwts1 s1 now1 req1 = .error .errInvalidCredentials ∧
    AuthUseCase.login jwts2 s2 now2 req2 = .error .errInvalidCredentials ∧
    AuthUseCase.login jwts1 s1 now1 req1 = AuthUseCase.login jwts2 s2 now2 req2 ∧
    Handler.loginStatus .errInvalidCredentials = 401 := by
  have hfind : s1.findByEmail req1.email = .error .errUserNotFound := by
    unfold Store.findByEmail
    have hnone : s1.users.find? (fun w => w.email = req1.email) = Option.none := by
      rw [List.find?_eq_none]
      intro w hw
      simp [hunknown w hw]
    rw [hnone]
  have h1 : AuthUseCase.login jwts1 s1 now1 req1 = .error .errInvalidCredentials := by
    unfold AuthUseCase.login
    by_cases hc : req1.email = "" ∨ req1.password = ""
    · rw [if_pos hc]
    · rw [if_neg hc, hfind]
      simp
  have h2 : AuthUseCase.login jwts2 s2 now2 req2 = .error .errInvalidCredentials := by
    unfold AuthUseCase.login
    by_cases hc : req2.email = "" ∨ req2.password = ""
    · rw [if_pos hc]
    · rw [if_neg hc, hfound]
      simp [hwrong]
  exact ⟨h1, h2, h1.trans h2.symm, rfl⟩

/-- Witness for C2: a never-registered email against an empty store, and a
registered email with the wrong password. -/
theorem login_unknown_email_matches_wrong_password_witness :
    AuthUseCase.login (JWTService.mk "k" "iss" 3600) ⟨[], 1⟩ 0 ⟨"a@x.com", "pw"⟩ =
      .error .errInvalidCredentials ∧
    AuthUseCase.login (JWTService.mk "k" "iss" 3600)
        ⟨[⟨1, "b@x.com", ⟨10, 5, bcryptKDF 10 5 "pw1"⟩, 0, 0⟩], 2⟩ 0 ⟨"b@x.com", "pw2"⟩ =
      .error .errInvalidCredentials ∧
    AuthUseCase.login (JWTService.mk "k" "iss" 3600) ⟨[], 1⟩ 0 ⟨"a@x.com", "pw"⟩ =
      AuthUseCase.login (JWTService.mk "k" "iss" 3600)
        ⟨[⟨1, "b@x.com", ⟨10, 5, bcryptKDF 10 5 "pw1"⟩, 0, 0⟩], 2⟩ 0 ⟨"b@x.com", "pw2"⟩ ∧
    Handler.loginStatus .errInvalidCredentials = 401 :=
  login_unknown_email_matches_wrong_password
    (JWTService.mk "k" "iss" 3600) ⟨[], 1⟩ 0 ⟨"a@x.com", "pw"⟩
    (JWTService.mk "k" "iss" 3600)
    ⟨[⟨1, "b@x.com", ⟨10, 5, bcryptKDF 10 5 "pw1"⟩, 0, 0⟩], 2⟩ 0 ⟨"b@x.com", "pw2"⟩
    ⟨1, "b@x.com", ⟨10, 5, bcryptKDF 10 5 "pw1"⟩, 0, 0⟩
    (by intro w hw; simp at hw)
    rfl
    (by simp [PasswordService.verify, compareHashAndPassword, bcryptKDF])

/-- A token-service collaborator that rejects every token, used to
instantiate gate theorems at concrete inputs. -/
def rejectAll : String → Except TokenError Claims :=
  fun _ => .error .malformed

/-- Claim C8: the gate hands a token substring to the token service iff the
Authorization header splits on spaces into exactly `["Bearer", tok]` (an
absent header is the empty string, which splits into `[""]`); whenever it
does not delegate, the request is rejected with a 401 response. -/
theorem gate_delegates_iff (validate : String → Except TokenError Claims)
    (authHeader : String) :
    (∀ tok, (authMiddleware validate authHeader).validated = .some tok ↔
      splitSpace authHeader = ["Bearer", tok]) ∧
    ((authMiddleware validate authHeader).validated = Option.none →
      ∃ msg, (authMiddleware validate authHeader).outcome = .rejected ⟨401, msg⟩) := by
  by_cases h0 : authHeader = ""
  · subst h0
    have hsplit : splitSpace "" = [""] := rfl
    constructor
    · intro tok
      simp [authMiddleware, hsplit]
    · intro _
      exact ⟨"\x7b\"error\":\"Missing authorization header\"\x7d", rfl⟩
  · rcases hs : splitSpace authHeader with _ | ⟨a, _ | ⟨b, _ | ⟨d, l⟩⟩⟩
    · constructor
      · intro tok
        simp [authMiddleware, h0, hs]
      · intro _
        simp [authMiddleware, h0, hs, marshalErrorResponse]
    · constructor
      · intro tok
        simp [authMiddleware, h0, hs]
      · intro _
        simp [authMiddleware, h0, hs, marshalErrorResponse]
    · by_cases hb : a = "Bearer"
      · subst hb
        cases hv : validate b with
        | error e =>
          constructor
          · intro tok
            simp [authMiddleware, h0, hs, hv]
          · intro hnone
            simp [authMiddleware, h0, hs, hv] at hnone
        | ok c =>
          constructor
          · intro tok
            simp [authMiddleware, h0, hs, hv]
          · intro hnone
            simp [authMiddleware, h0, hs, hv] at hnone
      · constructor
        · intro tok
          simp [authMiddleware, h0, hs, hb]
        · intro _
          simp [authMiddleware, h0, hs, hb, marshalErrorResponse]
    · constructor
      · intro tok
        simp [authMiddleware, h0, hs]
      · intro _
        simp [authMiddleware, h0, hs, marshalErrorResponse]

/-- Witness for C8: a well-shaped header is delegated; a wrong scheme is
rejected with 401 and never reaches the token service. -/
theorem gate_delegates_iff_witness :
    (authMiddleware rejectAll "Bearer abc").validated = .some "abc" ∧
    (authMiddleware rejectAll "Token abc").validated = Option.none ∧
    ∃ msg, (authMiddleware rejectAll "Token abc").outcome = .rejected ⟨401, msg⟩ :=
  ⟨((gate_delegates_iff rejectAll "Bearer abc").1 "abc").mpr rfl,
   rfl,
   (gate_delegates_iff rejectAll "Token abc").2 rfl⟩

/-- Counterexample to claim C1 as stated: two protected requests rejected by
different checks (absent header vs wrong scheme) both get 401 but carry
different response bodies — the middleware writes a distinct fixed message
per failure class, so the bodies are not identical across causes. -/
theorem gate_rejection_bodies_differ :
    (authMiddleware rejectAll "").outcome =
      .rejected ⟨401, marshalErrorResponse ⟨"Missing authorization header"⟩⟩ ∧
    (authMiddleware rejectAll "Basic abc").outcome =
      .rejected ⟨401, marshalErrorResponse ⟨"Invalid authorization header format"⟩⟩ ∧
    marshalErrorResponse ⟨"Missing authorization header"⟩ ≠
      marshalErrorResponse ⟨"Invalid authorization header format"⟩ := by
  refine ⟨rfl, rfl, ?_⟩
  decide

/-- Claim C1 (amended): every request the gate rejects gets status 401 with a
JSON body `\x7b"error": msg\x7d` whose message is a fixed function of the
failure class alone — so two rejections with the same failure cause have
identical response bodies; rejections with different causes carry the class's
distinct fixed messages. -/
theorem gate_rejection_uniform_within_class
    (validate : String → Except TokenError Claims) (authHeader : String) (c : GateFailure)
    (h : gateFailureClass validate authHeader = .some c) :
    (authMiddleware validate authHeader).outcome =
      .rejected ⟨401, marshalErrorResponse ⟨gateMessage c⟩⟩ := by
  by_cases h0 : authHeader = ""
  · simp [gateFailureClass, h0] at h
    subst h
    simp [authMiddleware, h0, gateMessage]
  · rcases hs : splitSpace authHeader with _ | ⟨a, _ | ⟨b, _ | ⟨d, l⟩⟩⟩
    · simp [gateFailureClass, h0, hs] at h
      subst h
      simp [authMiddleware, h0, hs, gateMessage]
    · simp [gateFailureClass, h0, hs] at h
      subst h
      simp [authMiddleware, h0, hs, gateMessage]
    · by_cases hb : a = "Bearer"
      · subst hb
        cases hv : validate b with
        | error e =>
          simp [gateFailureClass, h0, hs, hv] at h
          subst h
          simp [authMiddleware, h0, hs, hv, gateMessage]
        | ok cl =>
          simp [gateFailureClass, h0, hs, hv] at h
      · simp [gateFailureClass, h0, hs, hb] at h
        subst h
        simp [authMiddleware, h0, hs, hb, gateMessage]
    · simp [gateFailureClass, h0, hs] at h
      subst h
      simp [authMiddleware, h0, hs, gateMessage]

/-- Witness for the amended C1 at a concrete rejected request. -/
theorem gate_rejection_uniform_within_class_witness :
    (authMiddleware rejectAll "").outcome =
      .rejected ⟨401, marshalErrorResponse ⟨gateMessage .missingHeader⟩⟩ :=
  gate_rejection_uniform_within_class rejectAll "" .missingHeader rfl

/-- A fixed service configuration for concrete token-service inputs. -/
def jwtTestService : JWTService := ⟨"k", "iss", 3600⟩

/-- An expired, otherwise well-signed token under `jwtTestService`'s key. -/
def expiredTestToken : TokenString :=
  .signed .HS256 ⟨1, "a@x.com", "iss", 0, .some 5, Option.none⟩
    (hmacSign .HS256 "k" ⟨1, "a@x.com", "iss", 0, .some 5, Option.none⟩)

/-- Counterexample to claim C5 as stated: `ValidateToken` passes the parse
error through unchanged, so a malformed token and an expired token yield
different error values — the causes are distinguishable in the returned
error, contradicting "no distinction between these causes". -/
theorem validateToken_error_values_distinguish_causes :
    jwtTestService.validateToken 10 .malformed = .error .malformed ∧
    jwtTestService.validateToken 10 expiredTestToken = .error .expired ∧
    TokenError.malformed ≠ TokenError.expired := by
  refine ⟨rfl, rfl, ?_⟩
  decide

/-- Claim C5 (amended): for every token that is malformed, signed outside the
HMAC family (alg "none" included), carries a signature invalid under the
service key, or is expired at validation time, `ValidateToken` returns an
error — a binary reject with no partial acceptance; the error values do,
however, distinguish the causes (see the counterexample), and only the
gate collapses them into one Unauthorized outcome. -/
theorem validateToken_rejects_all_four (s : JWTService) (now : Int) (t : TokenString)
    (h : t = .malformed ∨
      (∃ alg c sig, t = .signed alg c sig ∧ sigAlgIsHMAC alg = false) ∨
      (∃ alg c sig, t = .signed alg c sig ∧ sig ≠ hmacSign alg s.secretKey c) ∨
      (∃ alg c sig e, t = .signed alg c sig ∧ c.expiresAt = .some e ∧ e ≤ now)) :
    ∃ err, s.validateToken now t = .error err := by
  rcases h with rfl | ⟨alg, c, sig, rfl, halg⟩ | ⟨alg, c, sig, rfl, hsig⟩ |
    ⟨alg, c, sig, e, rfl, hexp, hle⟩
  · exact ⟨.malformed, rfl⟩
  · exact ⟨.unexpectedSigningMethod, by simp [JWTService.validateToken, halg]⟩
  · by_cases halg : sigAlgIsHMAC alg = false
    · exact ⟨.unexpectedSigningMethod, by simp [JWTService.validateToken, halg]⟩
    · exact ⟨.signatureInvalid, by simp [JWTService.validateToken, halg, hsig]⟩
  · by_cases halg : sigAlgIsHMAC alg = false
    · exact ⟨.unexpectedSigningMethod, by simp [JWTService.validateToken, halg]⟩
    · by_cases hsig : sig = hmacSign alg s.secretKey c
      · exact ⟨.expired, by
          simp [JWTService.validateToken, expiresAtInvalid, halg, hsig, hexp, hle]⟩
      · exact ⟨.signatureInvalid, by simp [JWTService.validateToken, halg, hsig]⟩

/-- Witness for the amended C5: a malformed token, an alg="none" token, a
token signed under a different key, and an expired token are all rejected. -/
theorem validateToken_rejects_all_four_witness :
    (∃ err, jwtTestService.validateToken 10 .malformed = .error err) ∧
    (∃ err, jwtTestService.validateToken 10
      (.signed .algNone ⟨1, "a@x.com", "iss", 0, .some 99, Option.none⟩
        (hmacSign .algNone "k" ⟨1, "a@x.com", "iss", 0, .some 99, Option.none⟩)) = .error err) ∧
    (∃ err, jwtTestService.validateToken 10
      (.signed .HS256 ⟨1, "a@x.com", "iss", 0, .some 99, Option.none⟩
        (hmacSign .HS256 "other-key" ⟨1, "a@x.com", "iss", 0, .some 99, Option.none⟩)) =
      .error err) ∧
    (∃ err, jwtTestService.validateToken 10 expiredTestToken = .error err) :=
  ⟨validateToken_rejects_all_four jwtTestService 10 .malformed (Or.inl rfl),
   validateToken_rejects_all_four jwtTestService 10 _
     (Or.inr (Or.inl ⟨.algNone, _, _, rfl, rfl⟩)),
   validateToken_rejects_all_four jwtTestService 10 _
     (Or.inr (Or.inr (Or.inl ⟨.HS256, _, _, rfl, by decide⟩))),
   validateToken_rejects_all_four jwtTestService 10 expiredTestToken
     (Or.inr (Or.inr (Or.inr ⟨.HS256, _, _, 5, rfl, rfl, by decide⟩)))⟩

/-- Claims under `jwtTestService`'s key with a valid signature, an unexpired
`exp` (99, validated at now = 10) and a `NotBefore` still in the future (50),
with an Issuer differing from the configured one. -/
def futureNbfClaims : Claims :=
  ⟨1, "a@x.com", "some-other-issuer", 0, .some 99, .some 50⟩

/-- The token carrying `futureNbfClaims`, correctly HS256-signed under
`jwtTestService`'s key. -/
def futureNbfToken : TokenString :=
  .signed .HS256 futureNbfClaims (hmacSign .HS256 "k" futureNbfClaims)

/-- Counterexample to claim C10 as stated: a token with a valid HMAC-family
signature under the service's key and an unexpired `ExpiresAt` is
nevertheless rejected when its `NotBefore` lies in the future — the default
jwt/v5 validator checks `nbf` as well as `exp`, so validation does not
succeed for every such token regardless of the Issuer claim. -/
theorem validateToken_rejects_future_notBefore :
    sigAlgIsHMAC .HS256 = true ∧
    futureNbfClaims.expiresAt = .some 99 ∧ (10 : Int) < 99 ∧
    jwtTestService.validateToken 10 futureNbfToken = .error .notValidYet :=
  ⟨rfl, rfl, by decide, rfl⟩

/-- Claim C10 (amended): `ValidateToken` never inspects the Issuer claim even
though `GenerateToken` stamps the configured issuer (and sets no
`NotBefore`): any token with a valid HMAC-family signature under the service
key, an unexpired (or absent) `ExpiresAt` and an absent-or-passed `NotBefore`
validates successfully, for every value of the Issuer claim (`c.issuer` is
unconstrained; the empty string is how an absent `iss` unmarshals). -/
theorem validateToken_ignores_issuer (s : JWTService) (now : Int) (alg : SigAlg) (c : Claims)
    (uid : Int) (email : String)
    (halg : sigAlgIsHMAC alg = true)
    (hexp : ∀ e, c.expiresAt = .some e → now < e)
    (hnbf : ∀ n, c.notBefore = .some n → n ≤ now) :
    s.validateToken now (.signed alg c (hmacSign alg s.secretKey c)) = .ok c ∧
      (s.genClaims now uid email).issuer = s.issuer ∧
      (s.genClaims now uid email).notBefore = Option.none := by
  refine ⟨?_, rfl, rfl⟩
  have hexpF : expiresAtInvalid now c.expiresAt = false := by
    cases hc : c.expiresAt with
    | none => rfl
    | some e =>
      have he := hexp e hc
      simp only [expiresAtInvalid, decide_eq_false_iff_not]
      omega
  have hnbfF : notBeforeInvalid now c.notBefore = false := by
    cases hc : c.notBefore with
    | none => rfl
    | some n =>
      have hn := hnbf n hc
      simp only [notBeforeInvalid, decide_eq_false_iff_not]
      omega
  simp [JWTService.validateToken, halg, hexpF, hnbfF]

/-- Witness for the amended C10: a token whose issuer differs from the
configured one and that carries no `NotBefore` still validates. -/
theorem validateToken_ignores_issuer_witness :
    (JWTService.mk "k" "the-service" 3600).validateToken 0
        (.signed .HS256 ⟨1, "a@x.com", "some-other-issuer", 0, .some 9, Option.none⟩
          (hmacSign .HS256 "k" ⟨1, "a@x.com", "some-other-issuer", 0, .some 9, Option.none⟩)) =
      .ok ⟨1, "a@x.com", "some-other-issuer", 0, .some 9, Option.none⟩ ∧
    ((JWTService.mk "k" "the-service" 3600).genClaims 0 1 "a@x.com").issuer = "the-service" ∧
    ((JWTService.mk "k" "the-service" 3600).genClaims 0 1 "a@x.com").notBefore = Option.none :=
  validateToken_ignores_issuer (JWTService.mk "k" "the-service" 3600) 0 .HS256
    ⟨1, "a@x.com", "some-other-issuer", 0, .some 9, Option.none⟩ 1 "a@x.com" rfl
    (by intro e he; cases he; decide)
    (fun n hn => Option.noConfusion hn)

/-- Claim C9: no externally facing user representation includes the password
hash: the JSON forms of `domain.User` (register/login bodies) and of
`UserResponse` (GET /me body) are functions of the non-hash fields alone, so
two stored users differing only in `PasswordHash` produce identical
serialized bodies in every successful response. -/
theorem serialized_user_ignores_password_hash (u1 u2 : User) (jwts : JWTService) (now : Int)
    (hid : u1.id = u2.id) (hemail : u1.email = u2.email)
    (hcr : u1.createdAt = u2.createdAt) (hup : u1.updatedAt = u2.updatedAt) :
    marshalUser u1 = marshalUser u2 ∧
    marshalUserResponse u1 = marshalUserResponse u2 ∧
    marshalAuthResponse ⟨jwts.generateToken now u1.id u1.email, u1⟩ =
      marshalAuthResponse ⟨jwts.generateToken now u2.id u2.email, u2⟩ := by
  cases u1
  cases u2
  dsimp only at hid hemail hcr hup
  subst hid
  subst hemail
  subst hcr
  subst hup
  exact ⟨rfl, rfl, rfl⟩

/-- Witness for C9: two concrete users that differ only in their password
hash serialize to identical bodies. -/
theorem serialized_user_ignores_password_hash_witness :
    marshalUser ⟨1, "a@x.com", ⟨10, 5, bcryptKDF 10 5 "pw1"⟩, 0, 0⟩ =
      marshalUser ⟨1, "a@x.com", ⟨10, 6, bcryptKDF 10 6 "pw2"⟩, 0, 0⟩ ∧
    marshalUserResponse ⟨1, "a@x.com", ⟨10, 5, bcryptKDF 10 5 "pw1"⟩, 0, 0⟩ =
      marshalUserResponse ⟨1, "a@x.com", ⟨10, 6, bcryptKDF 10 6 "pw2"⟩, 0, 0⟩ ∧
    marshalAuthResponse ⟨jwtTestService.generateToken 0 1 "a@x.com",
        ⟨1, "a@x.com", ⟨10, 5, bcryptKDF 10 5 "pw1"⟩, 0, 0⟩⟩ =
      marshalAuthResponse ⟨jwtTestService.generateToken 0 1 "a@x.com",
        ⟨1, "a@x.com", ⟨10, 6, bcryptKDF 10 6 "pw2"⟩, 0, 0⟩⟩ :=
  serialized_user_ignores_password_hash
    ⟨1, "a@x.com", ⟨10, 5, bcryptKDF 10 5 "pw1"⟩, 0, 0⟩
    ⟨1, "a@x.com", ⟨10, 6, bcryptKDF 10 6 "pw2"⟩, 0, 0⟩
    jwtTestService 0 rfl rfl rfl rfl

end SecureRestApi
